import Mathlib

/-!
Verification of the bwtui API client (`src/api.rs`): data model, JSON
(de)serialization with field-name aliases, the prelogin / token-auth / sync
network operations, and the local persistence store.

Modelling conventions:
* JSON documents are values of the `Json` inductive below; serde derive
  serialization emits one object entry per non-skipped field under the
  field's canonical (lowercase) name, and deserialization accepts either
  the canonical name or the declared capitalized alias, ignores unknown
  keys, treats a missing or null entry for an `Option` field as `none`,
  and fills `#[serde(skip)]` fields with their default value.
* `Uuid`, `DateTime<Utc>` and `CipherString` are third-party / external
  types that (de)serialize as JSON strings; they are modelled as `String`.
* usize is modelled as `Nat`.
* The network is modelled by an `HttpOutcome` value: either a transport
  error or a response with a status code and a JSON body.
* The file system is modelled by `FsState`: whether the project data
  directory resolves / can be created, whether it currently exists, the
  contents of the two cache files, and a counter of directory resolutions.
-/

namespace Bwtui

/-- JSON values, as produced and consumed by serde_json. -/
inductive Json where
  | null : Json
  | bool (b : Bool) : Json
  | num (n : Nat) : Json
  | str (s : String) : Json
  | arr (elems : List Json) : Json
  | obj (fields : List (String × Json)) : Json

/-- Modelled as strings: `uuid::Uuid` serializes to / parses from a JSON string. -/
abbrev Uuid := String

/-- Modelled as strings: `chrono::DateTime<Utc>` serializes to / parses from a JSON string. -/
abbrev DateTimeUtc := String

/-- Modelled from the spec: `CipherString` (crate::cipher, not under src/) is an
encrypted-string blob that (de)serializes as a JSON string. -/
abbrev CipherString := String

/-- Modelled from the spec: the external Cipher Suite (crate::cipher, not under
src/) derives a master key and a master-key hash string from an email, a
password and a KDF iteration count.  It is modelled as a record of its
derivation inputs together with the derived hash; the derivation function
itself is kept abstract (theorems quantify over it). -/
structure CipherSuite where
  email : String
  password : String
  kdf_iterations : Nat
  master_key_hash : String
deriving DecidableEq

/-- Modelled from the spec: the `Default` value used by serde for the
`#[serde(skip)]` cipher field of `AuthData` on deserialization. -/
instance : Inhabited CipherSuite := ⟨⟨"", "", 0, ""⟩⟩

/-- `CipherSuite::from(email, password, kdf_iterations)`, with the hash
derivation abstracted as `hash`. -/
def cipherSuiteFrom (hash : String → String → Nat → String)
    (email password : String) (kdf_iterations : Nat) : CipherSuite :=
  ⟨email, password, kdf_iterations, hash email password kdf_iterations⟩

/-- The `ApiError` enum of src/api.rs. -/
inductive ApiError where
  | PreloginFailed (error : String)
  | LoginFailed (error : String)
  | RequestFailed (endpoint : String) (error : String)
  | VaultDataWriteFailed (error : String)
  | VaultDataReadFailed (error : String)
deriving DecidableEq

def AUTH_URL : String := "https://identity.bitwarden.com/connect/token"

def BASE_URL : String := "https://api.bitwarden.com"

/-! ### Generic JSON field access (serde derive behaviour) -/

/-- Look up an object entry stored under the canonical field name or its alias. -/
def lookupField (fields : List (String × Json)) (canonical aliasName : String) : Option Json :=
  (fields.find? (fun kv => kv.1 == canonical || kv.1 == aliasName)).map (·.2)

def Json.asString : Json → Option String
  | .str s => some s
  | _ => none

def Json.asNat : Json → Option Nat
  | .num n => some n
  | _ => none

def Json.asBool : Json → Option Bool
  | .bool b => some b
  | _ => none

/-- Parse a JSON array elementwise. -/
def parseArr (dec : Json → Option α) : Json → Option (List α)
  | .arr elems => elems.mapM dec
  | _ => none

/-- serde: a present entry for an `Option` field; `null` becomes `none`. -/
def parseOptVal (dec : Json → Option α) : Json → Option (Option α)
  | .null => some none
  | j => (dec j).map some

/-- serde: a required field must be present and parse. -/
def getReq (fields : List (String × Json)) (canonical aliasName : String)
    (dec : Json → Option α) : Option α :=
  (lookupField fields canonical aliasName).bind dec

/-- serde: an `Option` field may be absent or `null`, both yielding `none`. -/
def getOpt (fields : List (String × Json)) (canonical aliasName : String)
    (dec : Json → Option α) : Option (Option α) :=
  match lookupField fields canonical aliasName with
  | none => some none
  | some j => parseOptVal dec j

/-- serde serialization of an `Option` field: `None` becomes `null`. -/
def encodeOpt (enc : α → Json) : Option α → Json
  | none => .null
  | some a => enc a

/-- Select the canonical field name or (when `up` is true) the capitalized alias. -/
def fieldName (up : Bool) (canonical aliasName : String) : String :=
  if up then aliasName else canonical

/-- The keys of a JSON object. -/
def Json.objKeys : Json → List String
  | .obj fields => fields.map (·.1)
  | _ => []

/-! ### AuthData (the Session) -/

/-- `AuthData` of src/api.rs: the bearer token, token metadata, KDF parameters,
and the non-serialized (`#[serde(skip)]`) cipher suite. -/
structure AuthData where
  access_token : String
  expires_in : Nat
  token_type : String
  kdf : Nat
  kdf_iterations : Nat
  cipher : CipherSuite
deriving DecidableEq

/-- serde serialization of `AuthData`: every field except the skipped `cipher`,
under the canonical names (no aliases are declared on `AuthData`). -/
def AuthData.toJson (a : AuthData) : Json :=
  .obj [("access_token", .str a.access_token),
        ("expires_in", .num a.expires_in),
        ("token_type", .str a.token_type),
        ("kdf", .num a.kdf),
        ("kdf_iterations", .num a.kdf_iterations)]

/-- serde deserialization of `AuthData`: the skipped `cipher` field is filled
with its default value. -/
def AuthData.fromJson : Json → Option AuthData
  | .obj fields => do
    let access_token ← getReq fields "access_token" "access_token" Json.asString
    let expires_in ← getReq fields "expires_in" "expires_in" Json.asNat
    let token_type ← getReq fields "token_type" "token_type" Json.asString
    let kdf ← getReq fields "kdf" "kdf" Json.asNat
    let kdf_iterations ← getReq fields "kdf_iterations" "kdf_iterations" Json.asNat
    pure { access_token, expires_in, token_type, kdf, kdf_iterations,
           cipher := default }
  | _ => none

/-- `PreloginResponseData` of src/api.rs. -/
structure PreloginResponseData where
  kdf : Nat
  kdf_iterations : Nat
deriving DecidableEq

def PreloginResponseData.fromJson : Json → Option PreloginResponseData
  | .obj fields => do
    let kdf ← getReq fields "kdf" "Kdf" Json.asNat
    let kdf_iterations ← getReq fields "kdf_iterations" "KdfIterations" Json.asNat
    pure { kdf, kdf_iterations }
  | _ => none

/-- `LoginResponseData` of src/api.rs. -/
structure LoginResponseData where
  access_token : String
  expires_in : Nat
  token_type : String
deriving DecidableEq

def LoginResponseData.fromJson : Json → Option LoginResponseData
  | .obj fields => do
    let access_token ← getReq fields "access_token" "access_token" Json.asString
    let expires_in ← getReq fields "expires_in" "expires_in" Json.asNat
    let token_type ← getReq fields "token_type" "token_type" Json.asString
    pure { access_token, expires_in, token_type }
  | _ => none

/-! ### The vault data model

Every struct in src/api.rs declares, per field, a capitalized
`#[serde(alias = ...)]` next to its canonical lowercase name.  The encoders
below take a flag `up`: `up = false` emits the canonical names (what
serde serialization produces), `up = true` emits the capitalized alias names
(what the remote service sends). -/

/-- `Profile` of src/api.rs. -/
structure Profile where
  object : String
  uuid : Uuid
  name : String
  email : String
  email_verified : Bool
  premium : Bool
  master_password_hint : Option String
  language : String
  tfa_enabled : Bool
  key : CipherString
  private_key : CipherString
  security_stamp : String
  organizations : List String
deriving DecidableEq

def Profile.toJsonNamed (up : Bool) (p : Profile) : Json :=
  .obj [(fieldName up "object" "Object", .str p.object),
        (fieldName up "uuid" "Id", .str p.uuid),
        (fieldName up "name" "Name", .str p.name),
        (fieldName up "email" "Email", .str p.email),
        (fieldName up "email_verified" "EmailVerified", .bool p.email_verified),
        (fieldName up "premium" "Premium", .bool p.premium),
        (fieldName up "master_password_hint" "MasterPasswordHint",
          encodeOpt Json.str p.master_password_hint),
        (fieldName up "language" "Culture", .str p.language),
        (fieldName up "tfa_enabled" "TwoFactorEnabled", .bool p.tfa_enabled),
        (fieldName up "key" "Key", .str p.key),
        (fieldName up "private_key" "PrivateKey", .str p.private_key),
        (fieldName up "security_stamp" "SecurityStamp", .str p.security_stamp),
        (fieldName up "organizations" "Organizations", .arr (p.organizations.map .str))]

def Profile.fromJson : Json → Option Profile
  | .obj fields => do
    let object ← getReq fields "object" "Object" Json.asString
    let uuid ← getReq fields "uuid" "Id" Json.asString
    let name ← getReq fields "name" "Name" Json.asString
    let email ← getReq fields "email" "Email" Json.asString
    let email_verified ← getReq fields "email_verified" "EmailVerified" Json.asBool
    let premium ← getReq fields "premium" "Premium" Json.asBool
    let master_password_hint ← getOpt fields "master_password_hint" "MasterPasswordHint" Json.asString
    let language ← getReq fields "language" "Culture" Json.asString
    let tfa_enabled ← getReq fields "tfa_enabled" "TwoFactorEnabled" Json.asBool
    let key ← getReq fields "key" "Key" Json.asString
    let private_key ← getReq fields "private_key" "PrivateKey" Json.asString
    let security_stamp ← getReq fields "security_stamp" "SecurityStamp" Json.asString
    let organizations ← getReq fields "organizations" "Organizations" (parseArr Json.asString)
    pure { object, uuid, name, email, email_verified, premium, master_password_hint,
           language, tfa_enabled, key, private_key, security_stamp, organizations }
  | _ => none

/-- `Folder` of src/api.rs. -/
structure Folder where
  object : String
  uuid : Uuid
  name : CipherString
  last_changed : DateTimeUtc
deriving DecidableEq

def Folder.toJsonNamed (up : Bool) (f : Folder) : Json :=
  .obj [(fieldName up "object" "Object", .str f.object),
        (fieldName up "uuid" "Id", .str f.uuid),
        (fieldName up "name" "Name", .str f.name),
        (fieldName up "last_changed" "RevisionDate", .str f.last_changed)]

def Folder.fromJson : Json → Option Folder
  | .obj fields => do
    let object ← getReq fields "object" "Object" Json.asString
    let uuid ← getReq fields "uuid" "Id" Json.asString
    let name ← getReq fields "name" "Name" Json.asString
    let last_changed ← getReq fields "last_changed" "RevisionDate" Json.asString
    pure { object, uuid, name, last_changed }
  | _ => none

/-- `CipherEntryFields` of src/api.rs (a custom name/value/type field). -/
structure CipherEntryFields where
  type_ : Nat
  name : CipherString
  value : CipherString
deriving DecidableEq

def CipherEntryFields.toJsonNamed (up : Bool) (f : CipherEntryFields) : Json :=
  .obj [(fieldName up "type_" "Type", .num f.type_),
        (fieldName up "name" "Name", .str f.name),
        (fieldName up "value" "Value", .str f.value)]

def CipherEntryFields.fromJson : Json → Option CipherEntryFields
  | .obj fields => do
    let type_ ← getReq fields "type_" "Type" Json.asNat
    let name ← getReq fields "name" "Name" Json.asString
    let value ← getReq fields "value" "Value" Json.asString
    pure { type_, name, value }
  | _ => none

/-- `CipherEntryHistory` of src/api.rs (a password-history record). -/
structure CipherEntryHistory where
  password : String
  last_used_date : DateTimeUtc
deriving DecidableEq

def CipherEntryHistory.toJsonNamed (up : Bool) (h : CipherEntryHistory) : Json :=
  .obj [(fieldName up "password" "Password", .str h.password),
        (fieldName up "last_used_date" "LastUsedDate", .str h.last_used_date)]

def CipherEntryHistory.fromJson : Json → Option CipherEntryHistory
  | .obj fields => do
    let password ← getReq fields "password" "Password" Json.asString
    let last_used_date ← getReq fields "last_used_date" "LastUsedDate" Json.asString
    pure { password, last_used_date }
  | _ => none

/-- `CipherEntryUriMatch` of src/api.rs (a URI plus optional match rule). -/
structure CipherEntryUriMatch where
  uri : CipherString
  match_ : Option Nat
deriving DecidableEq

def CipherEntryUriMatch.toJsonNamed (up : Bool) (u : CipherEntryUriMatch) : Json :=
  .obj [(fieldName up "uri" "Uri", .str u.uri),
        (fieldName up "match_" "Match", encodeOpt Json.num u.match_)]

def CipherEntryUriMatch.fromJson : Json → Option CipherEntryUriMatch
  | .obj fields => do
    let uri ← getReq fields "uri" "Uri" Json.asString
    let match_ ← getOpt fields "match_" "Match" Json.asNat
    pure { uri, match_ }
  | _ => none

/-- `CipherEntryData` of src/api.rs (the type-specific payload of an entry).
The field `assword_last_changed` is spelt exactly as in the source. -/
structure CipherEntryData where
  uri : Option CipherString
  uris : Option (List CipherEntryUriMatch)
  username : CipherString
  password : CipherString
  assword_last_changed : Option DateTimeUtc
  totp : Option String
  name : CipherString
  notes : Option String
  fields : Option (List CipherEntryFields)
  password_history : Option (List CipherEntryHistory)
deriving DecidableEq

def CipherEntryData.toJsonNamed (up : Bool) (d : CipherEntryData) : Json :=
  .obj [(fieldName up "uri" "Uri", encodeOpt Json.str d.uri),
        (fieldName up "uris" "Uris",
          encodeOpt (fun xs => .arr (xs.map (CipherEntryUriMatch.toJsonNamed up))) d.uris),
        (fieldName up "username" "Username", .str d.username),
        (fieldName up "password" "Password", .str d.password),
        (fieldName up "assword_last_changed" "PasswordRevisionDate",
          encodeOpt Json.str d.assword_last_changed),
        (fieldName up "totp" "Totp", encodeOpt Json.str d.totp),
        (fieldName up "name" "Name", .str d.name),
        (fieldName up "notes" "Notes", encodeOpt Json.str d.notes),
        (fieldName up "fields" "Fields",
          encodeOpt (fun xs => .arr (xs.map (CipherEntryFields.toJsonNamed up))) d.fields),
        (fieldName up "password_history" "PasswordHistory",
          encodeOpt (fun xs => .arr (xs.map (CipherEntryHistory.toJsonNamed up))) d.password_history)]

def CipherEntryData.fromJson : Json → Option CipherEntryData
  | .obj fs => do
    let uri ← getOpt fs "uri" "Uri" Json.asString
    let uris ← getOpt fs "uris" "Uris" (parseArr CipherEntryUriMatch.fromJson)
    let username ← getReq fs "username" "Username" Json.asString
    let password ← getReq fs "password" "Password" Json.asString
    let assword_last_changed ← getOpt fs "assword_last_changed" "PasswordRevisionDate" Json.asString
    let totp ← getOpt fs "totp" "Totp" Json.asString
    let name ← getReq fs "name" "Name" Json.asString
    let notes ← getOpt fs "notes" "Notes" Json.asString
    let fields ← getOpt fs "fields" "Fields" (parseArr CipherEntryFields.fromJson)
    let password_history ← getOpt fs "password_history" "PasswordHistory"
      (parseArr CipherEntryHistory.fromJson)
    pure { uri, uris, username, password, assword_last_changed, totp, name, notes,
           fields, password_history }
  | _ => none

/-- `CipherEntry` of src/api.rs (a single vault item).  The field `login`
carries `#[serde(alias = "Login", skip)]`: it is neither serialized nor
deserialized, and is set to its default (`none`) when deserializing. -/
structure CipherEntry where
  object : String
  collection_ids : List Uuid
  folder_id : Option Uuid
  favorite : Bool
  edit : Bool
  uuid : Uuid
  organization_id : Option Uuid
  type_ : Nat
  data : CipherEntryData
  name : CipherString
  notes : Option String
  login : Option CipherEntryData
  card : Option String
  identity : Option String
  secure_note : Option String
  fields : Option (List CipherEntryFields)
  password_history : Option (List CipherEntryHistory)
  attachments : Option String
  organization_tfa : Bool
  last_changed : DateTimeUtc
deriving DecidableEq

def CipherEntry.toJsonNamed (up : Bool) (e : CipherEntry) : Json :=
  .obj [(fieldName up "object" "Object", .str e.object),
        (fieldName up "collection_ids" "CollectionIds", .arr (e.collection_ids.map .str)),
        (fieldName up "folder_id" "FolderId", encodeOpt Json.str e.folder_id),
        (fieldName up "favorite" "Favorite", .bool e.favorite),
        (fieldName up "edit" "Edit", .bool e.edit),
        (fieldName up "uuid" "Id", .str e.uuid),
        (fieldName up "organization_id" "OrganizationId", encodeOpt Json.str e.organization_id),
        (fieldName up "type_" "Type", .num e.type_),
        (fieldName up "data" "Data", CipherEntryData.toJsonNamed up e.data),
        (fieldName up "name" "Name", .str e.name),
        (fieldName up "notes" "Notes", encodeOpt Json.str e.notes),
        (fieldName up "card" "Card", encodeOpt Json.str e.card),
        (fieldName up "identity" "Identity", encodeOpt Json.str e.identity),
        (fieldName up "secure_note" "SecureNote", encodeOpt Json.str e.secure_note),
        (fieldName up "fields" "Fields",
          encodeOpt (fun xs => .arr (xs.map (CipherEntryFields.toJsonNamed up))) e.fields),
        (fieldName up "password_history" "PasswordHistory",
          encodeOpt (fun xs => .arr (xs.map (CipherEntryHistory.toJsonNamed up))) e.password_history),
        (fieldName up "attachments" "Attachments", encodeOpt Json.str e.attachments),
        (fieldName up "organization_tfa" "OrganizationUseTotp", .bool e.organization_tfa),
        (fieldName up "last_changed" "RevisionDate", .str e.last_changed)]

/-- The first ten fields of `CipherEntry`, in source order (an artifact of
splitting the 19-field deserializer in two; carries no meaning of its own). -/
structure CipherEntryHead where
  object : String
  collection_ids : List Uuid
  folder_id : Option Uuid
  favorite : Bool
  edit : Bool
  uuid : Uuid
  organization_id : Option Uuid
  type_ : Nat
  data : CipherEntryData
  name : CipherString
deriving DecidableEq

/-- The remaining serialized fields of `CipherEntry` (everything after `name`
except the skipped `login`), in source order. -/
structure CipherEntryTail where
  notes : Option String
  card : Option String
  identity : Option String
  secure_note : Option String
  fields : Option (List CipherEntryFields)
  password_history : Option (List CipherEntryHistory)
  attachments : Option String
  organization_tfa : Bool
  last_changed : DateTimeUtc
deriving DecidableEq

def CipherEntry.fromJsonHead (fs : List (String × Json)) : Option CipherEntryHead := do
  let object ← getReq fs "object" "Object" Json.asString
  let collection_ids ← getReq fs "collection_ids" "CollectionIds" (parseArr Json.asString)
  let folder_id ← getOpt fs "folder_id" "FolderId" Json.asString
  let favorite ← getReq fs "favorite" "Favorite" Json.asBool
  let edit ← getReq fs "edit" "Edit" Json.asBool
  let uuid ← getReq fs "uuid" "Id" Json.asString
  let organization_id ← getOpt fs "organization_id" "OrganizationId" Json.asString
  let type_ ← getReq fs "type_" "Type" Json.asNat
  let data ← getReq fs "data" "Data" CipherEntryData.fromJson
  let name ← getReq fs "name" "Name" Json.asString
  pure { object, collection_ids, folder_id, favorite, edit, uuid, organization_id,
         type_, data, name }

def CipherEntry.fromJsonTail (fs : List (String × Json)) : Option CipherEntryTail := do
  let notes ← getOpt fs "notes" "Notes" Json.asString
  let card ← getOpt fs "card" "Card" Json.asString
  let identity ← getOpt fs "identity" "Identity" Json.asString
  let secure_note ← getOpt fs "secure_note" "SecureNote" Json.asString
  let fields ← getOpt fs "fields" "Fields" (parseArr CipherEntryFields.fromJson)
  let password_history ← getOpt fs "password_history" "PasswordHistory"
    (parseArr CipherEntryHistory.fromJson)
  let attachments ← getOpt fs "attachments" "Attachments" Json.asString
  let organization_tfa ← getReq fs "organization_tfa" "OrganizationUseTotp" Json.asBool
  let last_changed ← getReq fs "last_changed" "RevisionDate" Json.asString
  pure { notes, card, identity, secure_note, fields, password_history, attachments,
         organization_tfa, last_changed }

/-- serde deserialization of a `CipherEntry`: one required-or-aliased lookup per
serialized field (split across the two helpers above purely to keep compile
times in check), with the skipped `login` field set to its default `none`. -/
def CipherEntry.fromJson : Json → Option CipherEntry
  | .obj fs => do
    let h ← CipherEntry.fromJsonHead fs
    let t ← CipherEntry.fromJsonTail fs
    pure { object := h.object, collection_ids := h.collection_ids,
           folder_id := h.folder_id, favorite := h.favorite, edit := h.edit,
           uuid := h.uuid, organization_id := h.organization_id, type_ := h.type_,
           data := h.data, name := h.name, notes := t.notes, login := none,
           card := t.card, identity := t.identity, secure_note := t.secure_note,
           fields := t.fields, password_history := t.password_history,
           attachments := t.attachments, organization_tfa := t.organization_tfa,
           last_changed := t.last_changed }
  | _ => none

/-- `Domains` of src/api.rs (an empty placeholder struct). -/
structure Domains where
deriving DecidableEq

/-- `VaultData` of src/api.rs.  The field `domains` carries
`#[serde(alias = "Domains", skip)]`: neither serialized nor deserialized. -/
structure VaultData where
  object : String
  profile : Profile
  folders : List Folder
  collections : List String
  ciphers : List CipherEntry
  domains : Option Domains
deriving DecidableEq

def VaultData.toJsonNamed (up : Bool) (v : VaultData) : Json :=
  .obj [(fieldName up "object" "Object", .str v.object),
        (fieldName up "profile" "Profile", Profile.toJsonNamed up v.profile),
        (fieldName up "folders" "Folders", .arr (v.folders.map (Folder.toJsonNamed up))),
        (fieldName up "collections" "Collections", .arr (v.collections.map .str)),
        (fieldName up "ciphers" "Ciphers", .arr (v.ciphers.map (CipherEntry.toJsonNamed up)))]

def VaultData.fromJson : Json → Option VaultData
  | .obj fs => do
    let object ← getReq fs "object" "Object" Json.asString
    let profile ← getReq fs "profile" "Profile" Profile.fromJson
    let folders ← getReq fs "folders" "Folders" (parseArr Folder.fromJson)
    let collections ← getReq fs "collections" "Collections" (parseArr Json.asString)
    let ciphers ← getReq fs "ciphers" "Ciphers" (parseArr CipherEntry.fromJson)
    pure { object, profile, folders, collections, ciphers, domains := none }
  | _ => none

/-- `AppData` of src/api.rs: the session/vault pair handed back by
`read_app_data`. -/
structure AppData where
  auth : AuthData
  vault : VaultData
deriving DecidableEq

/-- What survives serialization of a `CipherEntry`: the skipped `login` field
comes back as `none`. -/
def scrubEntry (e : CipherEntry) : CipherEntry := { e with login := none }

/-- What survives serialization of a `VaultData`: entries lose their skipped
`login` fields and the skipped `domains` field comes back as `none`. -/
def scrubVault (v : VaultData) : VaultData :=
  { v with ciphers := v.ciphers.map scrubEntry, domains := none }

/-- What survives serialization of an `AuthData`: the skipped `cipher` field
comes back as its default. -/
def scrubAuth (a : AuthData) : AuthData := { a with cipher := default }

/-! ### Network operations

A network interaction is modelled by the `HttpOutcome` the environment
produces for the request: either a transport error (reqwest `send()` or
client-build failure) or a response carrying an HTTP status code and a JSON
body. -/

inductive HttpOutcome where
  | transportError (msg : String)
  | response (status : Nat) (body : Json)

/-- `http::StatusCode::is_success()`: 2xx statuses. -/
def isSuccessStatus (status : Nat) : Bool :=
  200 ≤ status && status < 300

/-- The rendering of a non-success status in the error string
(src: `format!` with the Debug form of the status). -/
def statusDebug (status : Nat) : String :=
  toString status

/-- The parse-failure message produced by serde_json (free text; its exact
content is irrelevant to every claim). -/
def parseErrorMsg : String := "error decoding response body"

/-- `perform_prelogin` of src/api.rs: POST to BASE_URL/accounts/prelogin.
Transport errors, non-success statuses and body-parse failures all become
`PreloginFailed`. -/
def perform_prelogin (outcome : HttpOutcome) : Except ApiError PreloginResponseData :=
  match outcome with
  | .transportError msg => .error (.PreloginFailed msg)
  | .response status body =>
    if isSuccessStatus status then
      match PreloginResponseData.fromJson body with
      | some data => .ok data
      | none => .error (.PreloginFailed parseErrorMsg)
    else
      .error (.PreloginFailed (statusDebug status))

/-- The form body built by `perform_token_auth`: fixed constants plus the
per-call email, fresh device identifier, and master-key hash. -/
def tokenAuthForm (email device_id master_key_hash : String) : List (String × String) :=
  [("grant_type", "password"),
   ("username", email),
   ("scope", "api offline_access"),
   ("client_id", "connector"),
   ("deviceType", "3"),
   ("deviceIdentifier", device_id),
   ("deviceName", "bwtui"),
   ("password", master_key_hash)]

/-- Result of one `perform_token_auth` call: the device identifier it
generated, the form it submitted, and the processed response. -/
structure TokenAuthCall where
  device_id : String
  form : List (String × String)
  result : Except ApiError LoginResponseData

/-- `perform_token_auth` of src/api.rs.  `fresh` is the hyphenated string of
the `Uuid::new_v4()` value drawn inside the call; the form is submitted to
AUTH_URL and transport errors, non-success statuses and body-parse failures
all become `LoginFailed`. -/
def perform_token_auth (fresh : String) (outcome : HttpOutcome)
    (email : String) (cipher : CipherSuite) : TokenAuthCall :=
  let device_id := fresh
  let form := tokenAuthForm email device_id cipher.master_key_hash
  let result : Except ApiError LoginResponseData :=
    match outcome with
    | .transportError msg => .error (.LoginFailed msg)
    | .response status body =>
      if isSuccessStatus status then
        match LoginResponseData.fromJson body with
        | some data => .ok data
        | none => .error (.LoginFailed parseErrorMsg)
      else
        .error (.LoginFailed (statusDebug status))
  ⟨device_id, form, result⟩

/-- `authenticate` of src/api.rs: prelogin, cipher-suite derivation from
(email, password, discovered iteration count), then token auth; assembles the
`AuthData` from the login response plus the KDF parameters and the cipher.
`hash` abstracts the external master-key-hash derivation and `fresh` the
random device identifier. -/
def authenticate (hash : String → String → Nat → String) (fresh : String)
    (preloginOutcome tokenOutcome : HttpOutcome)
    (email password : String) : Except ApiError AuthData :=
  match perform_prelogin preloginOutcome with
  | .error e => .error e
  | .ok pre =>
    let cipher := cipherSuiteFrom hash email password pre.kdf_iterations
    match (perform_token_auth fresh tokenOutcome email cipher).result with
    | .error e => .error e
    | .ok login =>
      .ok { access_token := login.access_token, expires_in := login.expires_in,
            token_type := login.token_type, kdf := pre.kdf,
            kdf_iterations := pre.kdf_iterations, cipher }

/-- The sync endpoint URL (src: `format!` of BASE_URL and "/sync"). -/
def syncUrl : String := BASE_URL ++ "/sync"

/-- The Authorization header value sent by `sync`. -/
def syncAuthHeader (auth_data : AuthData) : String :=
  auth_data.token_type ++ " " ++ auth_data.access_token

/-- `sync` of src/api.rs: authenticated GET of the sync endpoint; transport
errors, non-success statuses and body-parse failures all become
`RequestFailed` carrying the endpoint URL. -/
def sync (outcome : HttpOutcome) (auth_data : AuthData) : Except ApiError VaultData :=
  let url := syncUrl
  let _header := syncAuthHeader auth_data
  match outcome with
  | .transportError msg => .error (.RequestFailed url msg)
  | .response status body =>
    if isSuccessStatus status then
      match VaultData.fromJson body with
      | some data => .ok data
      | none => .error (.RequestFailed url parseErrorMsg)
    else
      .error (.RequestFailed url (statusDebug status))

/-! ### Local persistence store -/

/-- The file-system state visible to the persistence store: whether
`ProjectDirs::from` succeeds, whether `fs::create_dir_all` would succeed,
whether the data directory currently exists, the contents of the two cache
files (as parsed JSON documents), and how many times the directory has been
resolved (`get_app_data_path` calls). -/
structure FsState where
  dirs_resolvable : Bool
  dir_creatable : Bool
  dirCreated : Bool
  authFile : Option Json
  vaultFile : Option Json
  resolveCount : Nat

def FsState.getFile (fs : FsState) (filename : String) : Option Json :=
  if filename = "auth.json" then fs.authFile
  else if filename = "vault.json" then fs.vaultFile
  else none

def FsState.setFile (fs : FsState) (filename : String) (doc : Json) : FsState :=
  if filename = "auth.json" then { fs with authFile := some doc }
  else if filename = "vault.json" then { fs with vaultFile := some doc }
  else fs

/-- `get_app_data_path` of src/api.rs: resolve the project data directory and
create it (idempotently) if absent.  Every call bumps `resolveCount`. -/
def get_app_data_path (fs : FsState) : Except String Unit × FsState :=
  let fs := { fs with resolveCount := fs.resolveCount + 1 }
  if fs.dirs_resolvable then
    if fs.dir_creatable then
      (.ok (), { fs with dirCreated := true })
    else
      (.error "could not create data directory", fs)
  else
    (.error "could not retrieve data directory path", fs)

/-- The io error text when opening a missing cache file (free text; only the
error kind matters to the claims). -/
def fileMissingMsg : String := "No such file or directory (os error 2)"

/-- The serde_json error text for an unparseable cache file. -/
def cacheParseMsg : String := "invalid cache document"

/-- `save_data_to` of src/api.rs, at an encoder `enc` for the saved type:
resolve the directory, create the file, serialize into it.  File creation and
JSON serialization are modelled as always succeeding once the directory
exists. -/
def save_data_to (enc : α → Json) (filename : String) (data : α)
    (fs : FsState) : Except ApiError Unit × FsState :=
  match get_app_data_path fs with
  | (.error msg, fs1) => (.error (.VaultDataWriteFailed msg), fs1)
  | (.ok _, fs1) => (.ok (), fs1.setFile filename (enc data))

/-- `read_data_from` of src/api.rs, at a decoder `dec` for the read type:
resolve the directory, open the file (failing if absent), deserialize. -/
def read_data_from (dec : Json → Option α) (filename : String)
    (fs : FsState) : Except ApiError α × FsState :=
  match get_app_data_path fs with
  | (.error msg, fs1) => (.error (.VaultDataReadFailed msg), fs1)
  | (.ok _, fs1) =>
    match fs1.getFile filename with
    | none => (.error (.VaultDataReadFailed fileMissingMsg), fs1)
    | some doc =>
      match dec doc with
      | none => (.error (.VaultDataReadFailed cacheParseMsg), fs1)
      | some data => (.ok data, fs1)

/-- `read_app_data` of src/api.rs: read auth.json then vault.json. -/
def read_app_data (fs : FsState) : Except ApiError AppData × FsState :=
  match read_data_from AuthData.fromJson "auth.json" fs with
  | (.error e, fs1) => (.error e, fs1)
  | (.ok auth, fs1) =>
    match read_data_from VaultData.fromJson "vault.json" fs1 with
    | (.error e, fs2) => (.error e, fs2)
    | (.ok vault, fs2) => (.ok { auth, vault }, fs2)

/-- `save_app_data` of src/api.rs: write auth.json then vault.json. -/
def save_app_data (auth : AuthData) (vault : VaultData)
    (fs : FsState) : Except ApiError Unit × FsState :=
  match save_data_to AuthData.toJson "auth.json" auth fs with
  | (.error e, fs1) => (.error e, fs1)
  | (.ok _, fs1) =>
    match save_data_to (VaultData.toJsonNamed false) "vault.json" vault fs1 with
    | (.error e, fs2) => (.error e, fs2)
    | (.ok _, fs2) => (.ok (), fs2)

/-- Does a result carry the `VaultDataReadFailed` error kind? -/
def isVaultDataReadFailed : Except ApiError α → Bool
  | .error (.VaultDataReadFailed _) => true
  | _ => false

/-! ### Concrete sample values (used by witnesses and counterexamples) -/

def profile0 : Profile :=
  { object := "profile", uuid := "11111111-1111-1111-1111-111111111111",
    name := "Alice", email := "alice@example.com", email_verified := true,
    premium := false, master_password_hint := none, language := "en-US",
    tfa_enabled := false, key := "2.ka|kb|kc", private_key := "2.pa|pb|pc",
    security_stamp := "stamp-1", organizations := [] }

def data0 : CipherEntryData :=
  { uri := some "2.ua|ub|uc", uris := none, username := "2.na|nb|nc",
    password := "2.pw|px|py", assword_last_changed := none, totp := none,
    name := "2.ea|eb|ec", notes := none, fields := none, password_history := none }

def entry0 : CipherEntry :=
  { object := "cipher", collection_ids := [], folder_id := none, favorite := false,
    edit := true, uuid := "22222222-2222-2222-2222-222222222222",
    organization_id := none, type_ := 1, data := data0, name := "2.ea|eb|ec",
    notes := none, login := none, card := none, identity := none,
    secure_note := none, fields := none, password_history := none,
    attachments := none, organization_tfa := false,
    last_changed := "2019-01-01T00:00:00Z" }

/-- An entry whose skipped `login` field is populated. -/
def entryBad : CipherEntry := { entry0 with login := some data0 }

def vault0 : VaultData :=
  { object := "sync", profile := profile0, folders := [], collections := [],
    ciphers := [entry0], domains := none }

/-- A vault containing `entryBad`. -/
def vaultBad : VaultData := { vault0 with ciphers := [entryBad] }

def auth0 : AuthData :=
  { access_token := "tok-1", expires_in := 3600, token_type := "Bearer",
    kdf := 0, kdf_iterations := 100000,
    cipher := ⟨"alice@example.com", "hunter2", 100000, "mkh-1"⟩ }

/-- A fresh file-system state: directory resolvable and creatable but not yet
created, no cache files. -/
def fs0 : FsState :=
  { dirs_resolvable := true, dir_creatable := true, dirCreated := false,
    authFile := none, vaultFile := none, resolveCount := 0 }

/-- The capitalized remote encoding of `entry0` with an extra `"Login"` entry,
as the remote service would send it. -/
def doc10 : Json :=
  match CipherEntry.toJsonNamed true entry0 with
  | .obj fs => .obj (fs ++ [("Login", CipherEntryData.toJsonNamed true data0)])
  | j => j

/-! ### Round-trip lemmas: deserializing an encoded document recovers the
value, with skipped fields reset to their defaults. -/

theorem mapM_dec_enc (dec : Json → Option α) (enc : α → Json)
    (h : ∀ a, dec (enc a) = some a) (xs : List α) :
    List.mapM dec (xs.map enc) = some xs := by
  induction xs with
  | nil => rfl
  | cons x xs ih => rw [List.map_cons, List.mapM_cons, h, ih]; rfl

theorem parseArr_encodeList (dec : Json → Option α) (enc : α → Json)
    (h : ∀ a, dec (enc a) = some a) (xs : List α) :
    parseArr dec (Json.arr (xs.map enc)) = some xs :=
  mapM_dec_enc dec enc h xs

theorem parseOptVal_str (o : Option String) :
    parseOptVal Json.asString (encodeOpt Json.str o) = some o := by
  cases o <;> rfl

theorem parseOptVal_num (o : Option Nat) :
    parseOptVal Json.asNat (encodeOpt Json.num o) = some o := by
  cases o <;> rfl

theorem parseOptVal_arr (dec : Json → Option α) (enc : α → Json)
    (h : ∀ a, dec (enc a) = some a) (o : Option (List α)) :
    parseOptVal (parseArr dec) (encodeOpt (fun xs => Json.arr (xs.map enc)) o) = some o := by
  cases o with
  | none => rfl
  | some xs => simp [parseOptVal, encodeOpt, parseArr_encodeList dec enc h]

theorem Folder_roundtrip (up : Bool) (f : Folder) :
    Folder.fromJson (Folder.toJsonNamed up f) = some f := by
  cases up <;>
    simp [Folder.fromJson, Folder.toJsonNamed, fieldName, getReq, lookupField,
          List.find?, Json.asString]

theorem CipherEntryFields_roundtrip (up : Bool) (x : CipherEntryFields) :
    CipherEntryFields.fromJson (CipherEntryFields.toJsonNamed up x) = some x := by
  cases up <;>
    simp [CipherEntryFields.fromJson, CipherEntryFields.toJsonNamed, fieldName,
          getReq, lookupField, List.find?, Json.asString, Json.asNat]

theorem CipherEntryHistory_roundtrip (up : Bool) (x : CipherEntryHistory) :
    CipherEntryHistory.fromJson (CipherEntryHistory.toJsonNamed up x) = some x := by
  cases up <;>
    simp [CipherEntryHistory.fromJson, CipherEntryHistory.toJsonNamed, fieldName,
          getReq, lookupField, List.find?, Json.asString]

theorem CipherEntryUriMatch_roundtrip (up : Bool) (x : CipherEntryUriMatch) :
    CipherEntryUriMatch.fromJson (CipherEntryUriMatch.toJsonNamed up x) = some x := by
  cases up <;>
    simp [CipherEntryUriMatch.fromJson, CipherEntryUriMatch.toJsonNamed, fieldName,
          getReq, getOpt, lookupField, List.find?, Json.asString, parseOptVal_num]

theorem Profile_roundtrip (up : Bool) (p : Profile) :
    Profile.fromJson (Profile.toJsonNamed up p) = some p := by
  cases up <;>
    simp [Profile.fromJson, Profile.toJsonNamed, fieldName, getReq, getOpt,
          lookupField, List.find?, Json.asString, Json.asBool, parseOptVal_str,
          parseArr_encodeList Json.asString Json.str (fun a => rfl)]

theorem CipherEntryData_roundtrip (up : Bool) (d : CipherEntryData) :
    CipherEntryData.fromJson (CipherEntryData.toJsonNamed up d) = some d := by
  cases up <;>
    simp [CipherEntryData.fromJson, CipherEntryData.toJsonNamed, fieldName,
          getReq, getOpt, lookupField, List.find?, Json.asString, parseOptVal_str,
          parseOptVal_arr _ _ (CipherEntryUriMatch_roundtrip _),
          parseOptVal_arr _ _ (CipherEntryFields_roundtrip _),
          parseOptVal_arr _ _ (CipherEntryHistory_roundtrip _)]


theorem mapM_dec_enc_map (dec : Json → Option α) (enc : β → Json) (g : β → α)
    (h : ∀ b, dec (enc b) = some (g b)) (xs : List β) :
    List.mapM dec (xs.map enc) = some (xs.map g) := by
  induction xs with
  | nil => rfl
  | cons x xs ih => rw [List.map_cons, List.mapM_cons, h, ih]; rfl

theorem parseArr_encodeList_map (dec : Json → Option α) (enc : β → Json) (g : β → α)
    (h : ∀ b, dec (enc b) = some (g b)) (xs : List β) :
    parseArr dec (Json.arr (xs.map enc)) = some (xs.map g) :=
  mapM_dec_enc_map dec enc g h xs

theorem CipherEntry_roundtrip (up : Bool) (e : CipherEntry) :
    CipherEntry.fromJson (CipherEntry.toJsonNamed up e) = some (scrubEntry e) := by
  cases up <;>
    simp [CipherEntry.fromJson, CipherEntry.fromJsonHead, CipherEntry.fromJsonTail,
          CipherEntry.toJsonNamed, scrubEntry, fieldName, getReq, getOpt,
          lookupField, List.find?, Json.asString, Json.asNat, Json.asBool,
          parseOptVal_str, CipherEntryData_roundtrip,
          parseArr_encodeList Json.asString Json.str (fun a => rfl),
          parseOptVal_arr _ _ (CipherEntryFields_roundtrip _),
          parseOptVal_arr _ _ (CipherEntryHistory_roundtrip _)]

theorem AuthData_roundtrip (a : AuthData) :
    AuthData.fromJson (AuthData.toJson a) = some (scrubAuth a) := by
  simp [AuthData.fromJson, AuthData.toJson, scrubAuth, getReq, lookupField,
        List.find?, Json.asString, Json.asNat]

theorem VaultData_roundtrip (up : Bool) (v : VaultData) :
    VaultData.fromJson (VaultData.toJsonNamed up v) = some (scrubVault v) := by
  cases up <;>
    simp [VaultData.fromJson, VaultData.toJsonNamed, scrubVault, fieldName,
          getReq, lookupField, List.find?, Json.asString, Profile_roundtrip,
          parseArr_encodeList Json.asString Json.str (fun a => rfl),
          parseArr_encodeList _ _ (Folder_roundtrip _),
          parseArr_encodeList_map _ _ scrubEntry (CipherEntry_roundtrip _)]


/-! ### Claim theorems -/

/-- C1 counterexample: a `VaultData` holding a cipher entry whose `login` field
is populated is not read back structurally equal in every non-cipher-suite
field: `save_app_data` then `read_app_data` returns the entry with
`login = none` while the saved value had `login = some data0`. -/
theorem c1_counterexample :
    (read_app_data (save_app_data auth0 vaultBad fs0).2).1.map
        (fun d => d.vault.ciphers.map CipherEntry.login) = .ok [none] ∧
    vaultBad.ciphers.map CipherEntry.login = [some data0] := by
  constructor
  · rfl
  · rfl

/-- C1 (amended): for every Session `a`, VaultData `v` and file-system state
whose data directory resolves and can be created, `save_app_data a v` followed
by `read_app_data` succeeds and returns the Session and VaultData structurally
equal to `a` and `v` in every field except the non-persisted fields skipped by
the serializer: the Session's cipher suite, each entry's `login` field and the
vault's `domains` field (see `scrubAuth`, `scrubVault`). -/
theorem c1_roundtrip (a : AuthData) (v : VaultData) (fs : FsState)
    (h1 : fs.dirs_resolvable = true) (h2 : fs.dir_creatable = true) :
    (save_app_data a v fs).1 = .ok () ∧
    (read_app_data (save_app_data a v fs).2).1 = .ok ⟨scrubAuth a, scrubVault v⟩ := by
  constructor <;>
    simp [save_app_data, save_data_to, read_app_data, read_data_from,
          get_app_data_path, FsState.getFile, FsState.setFile, h1, h2,
          AuthData_roundtrip, VaultData_roundtrip false]

/-- C1 witness: the round trip at the concrete session/vault pair. -/
theorem c1_roundtrip_witness :
    fs0.dirs_resolvable = true ∧ fs0.dir_creatable = true ∧
    (save_app_data auth0 vault0 fs0).1 = .ok () ∧
    (read_app_data (save_app_data auth0 vault0 fs0).2).1
      = .ok ⟨scrubAuth auth0, scrubVault vault0⟩ :=
  ⟨rfl, rfl, (c1_roundtrip auth0 vault0 fs0 rfl rfl).1,
   (c1_roundtrip auth0 vault0 fs0 rfl rfl).2⟩

/-- C2: a vault-sync document written with the capitalized remote field names
and the same document written with the lowercase canonical internal names both
deserialize successfully, to identical `VaultData` values. -/
theorem c2_alias_tolerance (v : VaultData) :
    VaultData.fromJson (VaultData.toJsonNamed true v)
      = VaultData.fromJson (VaultData.toJsonNamed false v) ∧
    VaultData.fromJson (VaultData.toJsonNamed true v) = some (scrubVault v) := by
  refine ⟨?_, VaultData_roundtrip true v⟩
  rw [VaultData_roundtrip true v, VaultData_roundtrip false v]

/-- C3: each pipeline stage maps an HTTP status ≥ 400 to its own single error
kind — `PreloginFailed` for prelogin, `LoginFailed` for the token exchange and
`RequestFailed` carrying the sync endpoint URL for sync — and within each
stage, transport errors, non-success statuses and body-parse failures all
collapse into that same kind, distinguished only by the message text. -/
theorem c3_failure_mapping :
    (∀ status, 400 ≤ status → ∀ body,
        perform_prelogin (.response status body)
          = .error (.PreloginFailed (statusDebug status))) ∧
    (∀ status, 400 ≤ status → ∀ body fresh email cipher,
        (perform_token_auth fresh (.response status body) email cipher).result
          = .error (.LoginFailed (statusDebug status))) ∧
    (∀ status, 400 ≤ status → ∀ body auth,
        sync (.response status body) auth
          = .error (.RequestFailed syncUrl (statusDebug status))) ∧
    (∀ o e, perform_prelogin o = .error e → ∃ msg, e = .PreloginFailed msg) ∧
    (∀ fresh o email cipher e,
        (perform_token_auth fresh o email cipher).result = .error e →
          ∃ msg, e = .LoginFailed msg) ∧
    (∀ o auth e, sync o auth = .error e → ∃ msg, e = .RequestFailed syncUrl msg) := by
  have hfail : ∀ status, 400 ≤ status → isSuccessStatus status = false := by
    intro status h
    simp only [isSuccessStatus, Bool.and_eq_false_imp, decide_eq_false_iff_not]
    omega
  refine ⟨?_, ?_, ?_, ?_, ?_, ?_⟩
  · intro status h body
    simp [perform_prelogin, hfail status h]
  · intro status h body fresh email cipher
    simp [perform_token_auth, hfail status h]
  · intro status h body auth
    simp [sync, hfail status h]
  · intro o e h
    cases o with
    | transportError msg =>
      exact ⟨msg, by simpa [perform_prelogin] using h.symm⟩
    | response status body =>
      by_cases hs : isSuccessStatus status
      · cases hp : PreloginResponseData.fromJson body with
        | none => exact ⟨parseErrorMsg, by simpa [perform_prelogin, hs, hp] using h.symm⟩
        | some d => simp [perform_prelogin, hs, hp] at h
      · have hs2 : isSuccessStatus status = false := by simpa using hs
        exact ⟨statusDebug status, by simpa [perform_prelogin, hs2] using h.symm⟩
  · intro fresh o email cipher e h
    cases o with
    | transportError msg =>
      exact ⟨msg, by simpa [perform_token_auth] using h.symm⟩
    | response status body =>
      by_cases hs : isSuccessStatus status
      · cases hp : LoginResponseData.fromJson body with
        | none => exact ⟨parseErrorMsg, by simpa [perform_token_auth, hs, hp] using h.symm⟩
        | some d => simp [perform_token_auth, hs, hp] at h
      · have hs2 : isSuccessStatus status = false := by simpa using hs
        exact ⟨statusDebug status, by simpa [perform_token_auth, hs2] using h.symm⟩
  · intro o auth e h
    cases o with
    | transportError msg =>
      exact ⟨msg, by simpa [sync] using h.symm⟩
    | response status body =>
      by_cases hs : isSuccessStatus status
      · cases hp : VaultData.fromJson body with
        | none => exact ⟨parseErrorMsg, by simpa [sync, hs, hp] using h.symm⟩
        | some d => simp [sync, hs, hp] at h
      · have hs2 : isSuccessStatus status = false := by simpa using hs
        exact ⟨statusDebug status, by simpa [sync, hs2] using h.symm⟩

/-- C3 witness: the status-mapping parts at concrete statuses 404, 500, 400. -/
theorem c3_witness :
    (400 : Nat) ≤ 404 ∧
    perform_prelogin (.response 404 (.obj []))
      = .error (.PreloginFailed (statusDebug 404)) ∧
    (perform_token_auth "dev-1" (.response 500 (.obj [])) "alice@example.com"
        default).result = .error (.LoginFailed (statusDebug 500)) ∧
    sync (.response 400 (.obj [])) auth0
      = .error (.RequestFailed syncUrl (statusDebug 400)) :=
  ⟨by decide,
   c3_failure_mapping.1 404 (by decide) _,
   c3_failure_mapping.2.1 500 (by decide) _ "dev-1" "alice@example.com" default,
   c3_failure_mapping.2.2.1 400 (by decide) _ auth0⟩

/-- C4: `authenticate` either fails (returning only an error, no session
state) or returns a Session whose KDF iteration count is exactly the one
delivered by the prelogin step of the same invocation, whose cipher suite was
derived from (email, password, that iteration count), and whose token fields
come from a successful token exchange performed with that cipher suite. -/
theorem c4_authenticate (hash : String → String → Nat → String) (fresh : String)
    (o1 o2 : HttpOutcome) (email password : String) :
    (∃ e, authenticate hash fresh o1 o2 email password = .error e) ∨
    (∃ a pre, authenticate hash fresh o1 o2 email password = .ok a ∧
      perform_prelogin o1 = .ok pre ∧
      a.kdf_iterations = pre.kdf_iterations ∧
      a.kdf = pre.kdf ∧
      a.cipher = cipherSuiteFrom hash email password pre.kdf_iterations ∧
      (perform_token_auth fresh o2 email a.cipher).result
        = .ok ⟨a.access_token, a.expires_in, a.token_type⟩) := by
  cases hp : perform_prelogin o1 with
  | error e => exact .inl ⟨e, by simp [authenticate, hp]⟩
  | ok pre =>
    cases ht : (perform_token_auth fresh o2 email
        (cipherSuiteFrom hash email password pre.kdf_iterations)).result with
    | error e => exact .inl ⟨e, by simp [authenticate, hp, ht]⟩
    | ok login =>
      refine .inr ⟨{ access_token := login.access_token, expires_in := login.expires_in,
                     token_type := login.token_type, kdf := pre.kdf,
                     kdf_iterations := pre.kdf_iterations,
                     cipher := cipherSuiteFrom hash email password pre.kdf_iterations },
                   pre, ?_, rfl, rfl, rfl, rfl, ?_⟩
      · simp [authenticate, hp, ht]
      · simpa using ht

/-- C5: `read_app_data` against a cache with neither file present (empty or
nonexistent directory) yields the `VaultDataReadFailed` error kind, and
creates no cache file. -/
theorem c5_missing_files (fs : FsState)
    (h1 : fs.authFile = none) (h2 : fs.vaultFile = none) :
    isVaultDataReadFailed (read_app_data fs).1 = true ∧
    (read_app_data fs).2.authFile = none ∧
    (read_app_data fs).2.vaultFile = none := by
  cases hr : fs.dirs_resolvable <;> cases hc : fs.dir_creatable <;>
    simp [read_app_data, read_data_from, get_app_data_path, FsState.getFile,
          isVaultDataReadFailed, h1, h2, hr, hc]

/-- C5 witness: the fresh state with no cache files. -/
theorem c5_missing_files_witness :
    fs0.authFile = none ∧ fs0.vaultFile = none ∧
    isVaultDataReadFailed (read_app_data fs0).1 = true ∧
    (read_app_data fs0).2.authFile = none ∧
    (read_app_data fs0).2.vaultFile = none :=
  ⟨rfl, rfl, (c5_missing_files fs0 rfl rfl).1, (c5_missing_files fs0 rfl rfl).2.1,
   (c5_missing_files fs0 rfl rfl).2.2⟩

/-- C6 counterexample: one `save_app_data` call on a resolvable state resolves
the data directory twice (once per file written), not exactly once. -/
theorem c6_counterexample :
    (save_app_data auth0 vault0 fs0).2.resolveCount = 2 ∧ (2 : Nat) ≠ 1 :=
  ⟨rfl, by decide⟩

/-- C6 (amended): each call to `save_app_data` or `read_app_data` resolves
(creating it if absent) the application data directory once per file operation
it attempts — once or twice per call, and exactly twice on a fully successful
save — rather than exactly once per call. -/
theorem c6_resolve_counts (a : AuthData) (v : VaultData) (fs : FsState) :
    ((save_app_data a v fs).2.resolveCount = fs.resolveCount + 1 ∨
     (save_app_data a v fs).2.resolveCount = fs.resolveCount + 2) ∧
    ((read_app_data fs).2.resolveCount = fs.resolveCount + 1 ∨
     (read_app_data fs).2.resolveCount = fs.resolveCount + 2) ∧
    (fs.dirs_resolvable = true → fs.dir_creatable = true →
      (save_app_data a v fs).2.resolveCount = fs.resolveCount + 2) := by
  refine ⟨?_, ?_, ?_⟩
  · cases hr : fs.dirs_resolvable <;> cases hc : fs.dir_creatable <;>
      simp [save_app_data, save_data_to, get_app_data_path, FsState.setFile, hr, hc]
  · cases hr : fs.dirs_resolvable <;> cases hc : fs.dir_creatable <;>
      cases ha : fs.authFile <;>
        simp [read_app_data, read_data_from, get_app_data_path, FsState.getFile,
              ha, hr, hc] <;>
        (try cases AuthData.fromJson _ <;> simp) <;>
        (try cases fs.vaultFile <;> simp) <;>
        (try cases VaultData.fromJson _ <;> simp)
  · intro hr hc
    simp [save_app_data, save_data_to, get_app_data_path, FsState.setFile, hr, hc]

/-- C6 witness: the success-path conjunct at the concrete state. -/
theorem c6_resolve_counts_witness :
    fs0.dirs_resolvable = true ∧ fs0.dir_creatable = true ∧
    (save_app_data auth0 vault0 fs0).2.resolveCount = fs0.resolveCount + 2 :=
  ⟨rfl, rfl, (c6_resolve_counts auth0 vault0 fs0).2.2 rfl rfl⟩

/-- C7: the form submitted by the token authenticator consists of exactly the
fixed constants grant_type=password, scope=api offline_access,
client_id=connector, deviceType=3, deviceName=bwtui, together with the
per-call email as `username`, the freshly generated device identifier, and the
cipher suite's master-key hash as `password`. -/
theorem c7_token_form (fresh email : String) (cipher : CipherSuite) (o : HttpOutcome) :
    (perform_token_auth fresh o email cipher).form =
      [("grant_type", "password"),
       ("username", email),
       ("scope", "api offline_access"),
       ("client_id", "connector"),
       ("deviceType", "3"),
       ("deviceIdentifier", (perform_token_auth fresh o email cipher).device_id),
       ("deviceName", "bwtui"),
       ("password", cipher.master_key_hash)] := rfl

/-- C8: the device identifier is the fresh random value drawn inside the call,
so two calls drawing distinct fresh values (the model of two consecutive
calls) produce different device identifiers, for the same email and regardless
of any other state. -/
theorem c8_device_id_fresh (f1 f2 : String) (h : f1 ≠ f2)
    (o1 o2 : HttpOutcome) (email : String) (c1 c2 : CipherSuite) :
    (perform_token_auth f1 o1 email c1).device_id
        ≠ (perform_token_auth f2 o2 email c2).device_id ∧
    (perform_token_auth f1 o1 email c1).device_id = f1 ∧
    (perform_token_auth f2 o2 email c2).device_id = f2 :=
  ⟨h, rfl, rfl⟩

/-- C8 witness: two concrete distinct draws. -/
theorem c8_device_id_fresh_witness :
    ("33333333-3333-3333-3333-333333333333" : String)
        ≠ "44444444-4444-4444-4444-444444444444" ∧
    (perform_token_auth "33333333-3333-3333-3333-333333333333"
        (.transportError "down") "alice@example.com" default).device_id
      ≠ (perform_token_auth "44444444-4444-4444-4444-444444444444"
        (.transportError "down") "alice@example.com" default).device_id :=
  ⟨by decide,
   (c8_device_id_fresh "33333333-3333-3333-3333-333333333333"
      "44444444-4444-4444-4444-444444444444" (by decide)
      (.transportError "down") (.transportError "down") "alice@example.com"
      default default).1⟩

/-- C9: every `read_app_data` or `save_app_data` call on a state whose data
directory is resolvable and creatable leaves the directory created —
including reads that fail afterwards because the cache files are missing
(no assumption is made on the cache files). -/
theorem c9_dir_created (a : AuthData) (v : VaultData) (fs : FsState)
    (h1 : fs.dirs_resolvable = true) (h2 : fs.dir_creatable = true) :
    (read_app_data fs).2.dirCreated = true ∧
    (save_app_data a v fs).2.dirCreated = true := by
  constructor
  · cases ha : fs.authFile <;>
      simp [read_app_data, read_data_from, get_app_data_path, FsState.getFile,
            ha, h1, h2] <;>
      (try cases AuthData.fromJson _ <;> simp) <;>
      (try cases fs.vaultFile <;> simp) <;>
      (try cases VaultData.fromJson _ <;> simp)
  · simp [save_app_data, save_data_to, get_app_data_path, FsState.setFile, h1, h2]

/-- C9 witness: on the fresh state (directory not yet created, no files) the
read fails with `VaultDataReadFailed` yet the directory has been created. -/
theorem c9_dir_created_witness :
    fs0.dirCreated = false ∧
    isVaultDataReadFailed (read_app_data fs0).1 = true ∧
    (read_app_data fs0).2.dirCreated = true ∧
    (save_app_data auth0 vault0 fs0).2.dirCreated = true :=
  ⟨rfl, rfl, (c9_dir_created auth0 vault0 fs0 rfl rfl).1,
   (c9_dir_created auth0 vault0 fs0 rfl rfl).2⟩

/-- C10: every successfully deserialized `CipherEntry` has `login = none`
(any `"Login"` payload in the document is dropped, not stored), and the
serializer never writes a `login`/`Login` key, under either naming. -/
theorem c10_login_dropped :
    (∀ j e, CipherEntry.fromJson j = some e → e.login = none) ∧
    (∀ up e, "login" ∉ (CipherEntry.toJsonNamed up e).objKeys ∧
             "Login" ∉ (CipherEntry.toJsonNamed up e).objKeys) := by
  constructor
  · intro j e h
    cases j <;> simp [CipherEntry.fromJson, Option.bind_eq_some] at h
    obtain ⟨hd, hhd, tl, htl, he⟩ := h
    rw [← he]
  · intro up e
    cases up <;> simp [CipherEntry.toJsonNamed, Json.objKeys, fieldName]

/-- C10 witness: a concrete capitalized remote document carrying a `"Login"`
payload deserializes to an entry whose `login` field is `none`. -/
theorem c10_login_dropped_witness :
    (CipherEntry.fromJson doc10).map CipherEntry.login = some none := by
  have h : CipherEntry.fromJson doc10 = some entry0 := by rfl
  rw [h]
  simp [c10_login_dropped.1 doc10 entry0 h]

end Bwtui
